import Mathlib

/-!
Verification of the resource-detection engine in `rcon-tool/resource_detector.py`.

The Python code is shallowly embedded: every search and detection method of the
`ResourceDetector` class becomes a Lean function over an explicit `World` record
that models the responses of the AWS CLI calls (a failed subprocess call is an
`Except.error` carrying the stderr text) and the process environment
(`os.getenv` becomes a partial map from variable names to strings).
-/

namespace Rcon

/-- Boolean test that `x` is a leading segment of `n` (Python `str.startswith`
on character lists). -/
def isPrefL : List Char → List Char → Bool
  | [], _ => true
  | _ :: _, [] => false
  | a :: as, b :: bs => a == b && isPrefL as bs

/-- Boolean substring test (Python `needle in hay`): `needle` occurs
contiguously in `hay`. -/
def isSubL (needle : List Char) : List Char → Bool
  | [] => isPrefL needle []
  | b :: bs => isPrefL needle (b :: bs) || isSubL needle bs

/-- Boolean test that `x` is a trailing segment of `n` (Python `str.endswith`). -/
def isSufL (x n : List Char) : Bool := isPrefL x.reverse n.reverse

/-- Python `needle in hay` on strings. -/
def pyIn (needle hay : String) : Bool := isSubL needle.toList hay.toList

/-- Specification-side proposition: `x` occurs contiguously inside `n`. -/
def SpecSub (x n : List Char) : Prop := ∃ s t, s ++ x ++ t = n

/-- Specification-side proposition: `n` ends with `x`. -/
def SpecEnds (x n : List Char) : Prop := ∃ s, s ++ x = n

/-- Specification-side proposition: `n` starts with `x`. -/
def SpecStarts (x n : List Char) : Prop := ∃ t, x ++ t = n

theorem isPrefL_iff (x n : List Char) : isPrefL x n = true ↔ SpecStarts x n := by
  unfold SpecStarts
  induction x generalizing n with
  | nil => simp [isPrefL]
  | cons a as ih =>
    cases n with
    | nil => simp [isPrefL]
    | cons b bs =>
      simp only [isPrefL, Bool.and_eq_true, beq_iff_eq, ih bs, List.cons_append,
        List.cons.injEq]
      constructor
      · rintro ⟨rfl, t, rfl⟩; exact ⟨t, rfl, rfl⟩
      · rintro ⟨t, rfl, rfl⟩; exact ⟨rfl, t, rfl⟩

theorem isSufL_iff (x n : List Char) : isSufL x n = true ↔ SpecEnds x n := by
  unfold isSufL
  rw [isPrefL_iff]
  constructor
  · rintro ⟨t, ht⟩
    refine ⟨t.reverse, ?_⟩
    have := congrArg List.reverse ht
    simpa using this
  · rintro ⟨s, rfl⟩
    exact ⟨s.reverse, by simp⟩

theorem isSubL_iff (x n : List Char) : isSubL x n = true ↔ SpecSub x n := by
  unfold SpecSub
  induction n with
  | nil =>
    simp only [isSubL]
    rw [isPrefL_iff]
    unfold SpecStarts
    constructor
    · rintro ⟨t, ht⟩
      exact ⟨[], t, by simpa using ht⟩
    · rintro ⟨s, t, hst⟩
      have hs : s = [] := by
        cases s with
        | nil => rfl
        | cons c cs => simp at hst
      subst hs
      exact ⟨t, by simpa using hst⟩
  | cons b bs ih =>
    simp only [isSubL, Bool.or_eq_true]
    rw [isPrefL_iff, ih]
    constructor
    · rintro (⟨t, ht⟩ | ⟨s, t, hst⟩)
      · exact ⟨[], t, by simpa using ht⟩
      · exact ⟨b :: s, t, by simp [hst]⟩
    · rintro ⟨s, t, hst⟩
      cases s with
      | nil => exact Or.inl ⟨t, by simpa using hst⟩
      | cons c cs =>
        simp only [List.cons_append, List.cons.injEq] at hst
        exact Or.inr ⟨cs, t, hst.2⟩

theorem isSubL_nil (n : List Char) : isSubL [] n = true := by
  cases n <;> simp [isSubL, isPrefL]

theorem isSubL_of_mem {c : Char} {l : List Char} (h : c ∈ l) :
    isSubL [c] l = true := by
  rw [isSubL_iff]
  obtain ⟨s, t, rfl⟩ := List.append_of_mem h
  exact ⟨s, t, by simp⟩

theorem mem_of_isSubL_singleton {c : Char} {l : List Char}
    (h : isSubL [c] l = true) : c ∈ l := by
  rw [isSubL_iff] at h
  obtain ⟨s, t, rfl⟩ := h
  simp

/-- Embeds `_matches_pattern` of `resource_detector.py`: a literal pattern is a
substring test; `*X*` tests that `X` is a substring, `*X` that the name ends
with `X`, `X*` that the name starts with `X`; any other placement of the
wildcard falls through to `False`. Python slices `pattern[1:-1]`, `pattern[1:]`
and `pattern[:-1]` become `(drop 1).dropLast`, `drop 1` and `dropLast`. -/
def matchesPattern (name pattern : List Char) : Bool :=
  if !(isSubL ['*'] pattern) then isSubL pattern name
  else if isPrefL ['*'] pattern && isSufL ['*'] pattern then
    isSubL ((pattern.drop 1).dropLast) name
  else if isPrefL ['*'] pattern then isSufL (pattern.drop 1) name
  else if isSufL ['*'] pattern then isPrefL pattern.dropLast name
  else false

/-- String-level wrapper of `matchesPattern`, as the Python method receives
strings. -/
def matchesPatternS (name pattern : String) : Bool :=
  matchesPattern name.toList pattern.toList

theorem isSubL_star_of_head (r : List Char) : isSubL ['*'] ('*' :: r) = true :=
  isSubL_of_mem (List.mem_cons_self _ _)

theorem isPrefL_star_cons (r : List Char) : isPrefL ['*'] ('*' :: r) = true := by
  simp [isPrefL]

theorem isPrefL_star_cons_ne {x : Char} (r : List Char) (hx : x ≠ '*') :
    isPrefL ['*'] (x :: r) = false := by
  simp [isPrefL, hx.symm]

theorem isSufL_star_concat (r : List Char) : isSufL ['*'] (r ++ ['*']) = true := by
  unfold isSufL
  simp [isPrefL]

theorem isSufL_star_concat_ne {y : Char} (r : List Char) (hy : y ≠ '*') :
    isSufL ['*'] (r ++ [y]) = false := by
  unfold isSufL
  simp [isPrefL, hy.symm]

theorem isSubL_star_free {X : List Char} (hX : '*' ∉ X) :
    isSubL ['*'] X = false := by
  cases h : isSubL ['*'] X with
  | false => rfl
  | true => exact absurd (mem_of_isSubL_singleton h) hX

/-- Claim C5: `matches(candidateName, pattern)` implements, for a wildcard-free
piece `X`: literal `X` → substring; `*X*` → substring; `*X` → ends-with;
`X*` → starts-with; and on the concrete inputs of the claim, `*-cluster`
matches `"foo-cluster"` and `"minecraft-cdk-cluster"` but not
`"cluster-foo"`. -/
theorem c5_matcher (name X : List Char) (hX : '*' ∉ X) :
    (matchesPattern name X = true ↔ SpecSub X name) ∧
    (matchesPattern name ('*' :: X ++ ['*']) = true ↔ SpecSub X name) ∧
    (matchesPattern name ('*' :: X) = true ↔ SpecEnds X name) ∧
    (matchesPattern name (X ++ ['*']) = true ↔ SpecStarts X name) ∧
    matchesPatternS "foo-cluster" "*-cluster" = true ∧
    matchesPatternS "minecraft-cdk-cluster" "*-cluster" = true ∧
    matchesPatternS "cluster-foo" "*-cluster" = false := by
  refine ⟨?_, ?_, ?_, ?_, by decide, by decide, by decide⟩
  · unfold matchesPattern
    rw [isSubL_star_free hX]
    simp [isSubL_iff]
  · unfold matchesPattern
    have h1 : isSubL ['*'] ('*' :: X ++ ['*']) = true := isSubL_star_of_head _
    have h2 : isPrefL ['*'] ('*' :: X ++ ['*']) = true := isPrefL_star_cons _
    have h3 : isSufL ['*'] ('*' :: X ++ ['*']) = true := by
      have := isSufL_star_concat ('*' :: X)
      simpa using this
    rw [h1, h2, h3]
    simp only [Bool.not_true, Bool.false_eq_true, if_false, Bool.and_self, if_true]
    have hdrop : (('*' :: X ++ ['*']).drop 1).dropLast = X := by simp
    rw [hdrop, isSubL_iff]
  · rcases List.eq_nil_or_concat X with rfl | ⟨ys, y, hy⟩
    · unfold matchesPattern
      have h1 : isSubL ['*'] ['*'] = true := isSubL_star_of_head []
      have h2 : isPrefL ['*'] ['*'] = true := isPrefL_star_cons []
      have h3 : isSufL ['*'] ['*'] = true := by
        have := isSufL_star_concat []
        simpa using this
      rw [show ('*' :: ([] : List Char)) = ['*'] from rfl, h1, h2, h3]
      simp only [Bool.not_true, Bool.false_eq_true, if_false, Bool.and_self, if_true]
      constructor
      · intro _; exact ⟨name, by simp⟩
      · intro _
        exact isSubL_nil name
    · have hy' : y ≠ '*' := by
        intro h; subst h; subst hy; exact hX (by simp)
      rw [List.concat_eq_append] at hy
      subst hy
      unfold matchesPattern
      have h1 : isSubL ['*'] ('*' :: (ys ++ [y])) = true := isSubL_star_of_head _
      have h2 : isPrefL ['*'] ('*' :: (ys ++ [y])) = true := isPrefL_star_cons _
      have h3 : isSufL ['*'] ('*' :: (ys ++ [y])) = false := by
        have := isSufL_star_concat_ne ('*' :: ys) hy'
        simpa using this
      rw [h1, h2, h3]
      simp only [Bool.not_true, Bool.false_eq_true, if_false, Bool.and_false,
        if_true, List.drop_one, List.tail_cons]
      rw [isSufL_iff]
  · rcases List.eq_nil_or_concat X with rfl | _
    · unfold matchesPattern
      have h1 : isSubL ['*'] ['*'] = true := isSubL_star_of_head []
      have h2 : isPrefL ['*'] ['*'] = true := isPrefL_star_cons []
      have h3 : isSufL ['*'] ['*'] = true := by
        have := isSufL_star_concat []
        simpa using this
      rw [show (([] : List Char) ++ ['*']) = ['*'] from rfl, h1, h2, h3]
      simp only [Bool.not_true, Bool.false_eq_true, if_false, Bool.and_self, if_true]
      constructor
      · intro _; exact ⟨name, by simp⟩
      · intro _
        exact isSubL_nil name
    · cases X with
      | nil => simp at *
      | cons x xs =>
        have hx : x ≠ '*' := by intro h; subst h; exact hX (by simp)
        unfold matchesPattern
        have h1 : isSubL ['*'] ((x :: xs) ++ ['*']) = true := by
          rw [isSubL_iff]
          exact ⟨x :: xs, [], by simp⟩
        have h2 : isPrefL ['*'] ((x :: xs) ++ ['*']) = false := by
          have := isPrefL_star_cons_ne (xs ++ ['*']) hx
          simpa using this
        have h3 : isSufL ['*'] ((x :: xs) ++ ['*']) = true := isSufL_star_concat _
        rw [h1, h2, h3]
        simp only [Bool.not_true, Bool.false_eq_true, if_false, Bool.false_and,
          if_true]
        have hdrop : ((x :: xs) ++ ['*']).dropLast = x :: xs :=
          List.dropLast_concat
        rw [hdrop, isPrefL_iff]

/-- Witness for C5 at concrete inputs: the literal clause at `X = "b"`,
`name = "abc"`, plus the concrete wildcard examples. -/
theorem c5_matcher_witness :
    matchesPattern "abc".toList "b".toList = true ∧
    matchesPatternS "foo-cluster" "*-cluster" = true := by
  have h := c5_matcher "abc".toList "b".toList (by decide)
  exact ⟨h.1.mpr ⟨['a'], ['c'], by decide⟩, h.2.2.2.2.2.1⟩

/-- Claim C10: a pattern that contains the wildcard character, but neither as
its first nor as its last character, falls through every branch of
`_matches_pattern` and matches no candidate name at all. -/
theorem c10_inner_wildcard (name pattern : List Char)
    (h1 : '*' ∈ pattern)
    (h2 : pattern.head? ≠ some '*')
    (h3 : pattern.getLast? ≠ some '*') :
    matchesPattern name pattern = false := by
  cases pattern with
  | nil => simp at h1
  | cons p ps =>
    have hp : p ≠ '*' := by
      intro h; subst h; simp at h2
    rcases List.eq_nil_or_concat ps with rfl | ⟨qs, q, hq⟩
    · simp at h1
      exact absurd h1.symm hp
    · rw [List.concat_eq_append] at hq
      subst hq
      have hq' : q ≠ '*' := by
        intro h; subst h
        rw [show (p :: (qs ++ ['*'])) = (p :: qs) ++ ['*'] by simp,
          List.getLast?_concat] at h3
        simp at h3
      unfold matchesPattern
      have hs : isSubL ['*'] (p :: (qs ++ [q])) = true := isSubL_of_mem h1
      have hpre : isPrefL ['*'] (p :: (qs ++ [q])) = false :=
        isPrefL_star_cons_ne _ hp
      have hsuf : isSufL ['*'] (p :: (qs ++ [q])) = false := by
        have := isSufL_star_concat_ne (p :: qs) hq'
        simpa using this
      rw [hs, hpre, hsuf]
      simp

/-- Witness for C10 with the claim's example pattern `"a*b"`. -/
theorem c10_inner_wildcard_witness :
    matchesPattern "xaby".toList "a*b".toList = false :=
  c10_inner_wildcard "xaby".toList "a*b".toList (by decide) (by decide) (by decide)

/-! ## Data model: configuration, AWS world, JSON values -/

/-- Embeds `DetectionMode` of `resource_detector.py`. -/
inductive DetectionMode where
  | auto
  | env
  | tags
  | naming
deriving DecidableEq, BEq, Repr

/-- Embeds `DetectionMode.value`: the string stored in the snapshot. -/
def DetectionMode.value : DetectionMode → String
  | .auto => "auto"
  | .env => "env"
  | .tags => "tags"
  | .naming => "naming"

/-- Constructor arguments of `ResourceDetector.__init__` (the AWS region only
parametrizes the CLI calls and never influences the control flow, so it is
omitted). -/
structure Config where
  environment : String
  project_name : String
  detection_mode : DetectionMode
deriving DecidableEq, Repr

/-- One `{"key": ..., "value": ...}` element of an ECS tag list, or one
`{"Key": ..., "Value": ...}` element of an EC2/ELB tag list. -/
structure Tag where
  key : String
  value : String
deriving DecidableEq, Repr

/-- One EC2 instance of a reservation in the `describe-instances` response. -/
structure EC2Inst where
  instanceId : String
  state : String
  tags : List Tag
deriving DecidableEq, Repr

/-- One entry of the `describe-load-balancers` response. -/
structure LBInfo where
  lbName : String
  dnsName : String
  tags : List Tag
deriving DecidableEq, Repr

/-- The environment of one resolution run: `os.getenv` plus the data behind
every AWS CLI call the detector issues. A call that fails
(`subprocess.CalledProcessError`) is an `Except.error` carrying the stderr
text. Repeating a call yields the same answer, matching the deterministic
single-threaded execution. -/
structure World where
  env : String → Option String
  clusterArns : Except String (List String)
  clusterTags : String → Except String (Option (List Tag))
  serviceArns : String → Except String (List String)
  serviceTags : String → String → Except String (Option (List Tag))
  taskArns : String → String → Except String (List String)
  taskContainers : String → String → Except String (List String)
  ec2Reservations : Except String (List (List EC2Inst))
  loadBalancers : Except String (List LBInfo)

/-- Embeds the Python walrus-and-truthiness idiom
`if name := os.getenv(key):` — the branch is taken exactly when the variable
is present with a non-empty value. -/
def envTruthy (w : World) (key : String) : Option String :=
  match w.env key with
  | some v => if v == "" then none else some v
  | none => none

/-- Minimal model of the values `json.loads` produces from the CLI output:
strings, arrays and objects (Python dicts, keys in insertion order). -/
inductive PyJson where
  | str : String → PyJson
  | arr : List PyJson → PyJson
  | dict : List (String × PyJson) → PyJson
deriving Repr

/-- Python iteration over a parsed JSON value when the elements are used as
strings: iterating a dict yields its keys, iterating a list yields its
(string) elements. -/
def PyJson.iterStrings : PyJson → List String
  | .dict kvs => kvs.map Prod.fst
  | .arr xs => xs.map (fun j => match j with | .str s => s | _ => "")
  | .str _ => []

/-- Python `dict.get(key, default)`. -/
def PyJson.getD : PyJson → String → PyJson → PyJson
  | .dict kvs, key, d =>
    (match kvs.find? (fun kv => kv.1 == key) with
     | some kv => kv.2
     | none => d)
  | .str _, _, d => d
  | .arr _, _, d => d

/-- The parsed stdout of `aws ecs list-clusters --output json`: the object
`{"clusterArns": [...]}`. -/
def listClustersStdout (arns : List String) : PyJson :=
  .dict [("clusterArns", .arr (arns.map .str))]

/-- The parsed stdout of `aws ecs list-services --cluster ... --output json`:
the object `{"serviceArns": [...]}`. -/
def listServicesStdout (arns : List String) : PyJson :=
  .dict [("serviceArns", .arr (arns.map .str))]

/-- Embeds Python `arn.split("/")[-1]`: the characters after the last slash
(the whole string when no slash occurs). -/
def afterLastSlash : List Char → List Char → List Char
  | [], cur => cur.reverse
  | c :: rest, cur =>
    if c == '/' then afterLastSlash rest []
    else afterLastSlash rest (c :: cur)

/-- String-level wrapper of `afterLastSlash` starting from the empty current
segment. -/
def lastSegment (s : String) : String := String.mk (afterLastSlash s.toList [])

/-- JMESPath truthiness of `Tags[?Key=='k' && Value=='v']`: some tag of the
list has exactly that key and value. -/
def hasTagKV (tags : List Tag) (k v : String) : Bool :=
  tags.any (fun t => t.key == k && t.value == v)

/-! ## Search strategies -/

/-- Embeds `_matches_cluster_naming_pattern`: the five literal cluster name
patterns, each tested with Python `pattern in cluster_name`. -/
def matches_cluster_naming_pattern (cfg : Config) (cluster_name : String) : Bool :=
  [cfg.project_name ++ "-cluster",
   "minecraft-" ++ cfg.environment ++ "-cluster",
   "minecraft-cluster",
   cfg.project_name ++ "-cdk-cluster",
   "minecraft-cdk-cluster"].any (fun p => pyIn p cluster_name)

/-- Embeds `_matches_service_naming_pattern`: the five literal service name
patterns, each tested with Python `pattern in service_name`. -/
def matches_service_naming_pattern (cfg : Config) (service_name : String) : Bool :=
  [cfg.project_name ++ "-service",
   "minecraft-" ++ cfg.environment ++ "-service",
   "minecraft-service",
   "ECSMinecraftService",
   "MinecraftService"].any (fun p => pyIn p service_name)

/-- Per-candidate tag acceptance of `_search_ecs_clusters_by_tags`: the fetched
tag list is non-null and some tag has key `"Project"` with exactly the
configured project name as value; a failed fetch counts as no tag match. -/
def clusterTagOk (cfg : Config) (w : World) (cluster_name : String) : Bool :=
  match w.clusterTags cluster_name with
  | .ok (some tags) =>
    tags.any (fun t => t.key == "Project" && t.value == cfg.project_name)
  | .ok none => false
  | .error _ => false

/-- The candidate loop of `_search_ecs_clusters_by_tags`: a candidate whose
tags match the project is appended (`continue`), otherwise the candidate is
appended when its name matches the cluster naming patterns. -/
def clustersTagLoop (cfg : Config) (w : World) : List String → List String
  | [] => []
  | arn :: rest =>
    if clusterTagOk cfg w (lastSegment arn) then
      lastSegment arn :: clustersTagLoop cfg w rest
    else if matches_cluster_naming_pattern cfg (lastSegment arn) then
      lastSegment arn :: clustersTagLoop cfg w rest
    else
      clustersTagLoop cfg w rest

/-- Embeds `_search_ecs_clusters_by_tags`: lists all clusters
(`clusters_data.get("clusterArns", [])`), runs the candidate loop, and returns
`[]` when the top-level listing call fails. -/
def search_ecs_clusters_by_tags (cfg : Config) (w : World) : List String :=
  match w.clusterArns with
  | .error _ => []
  | .ok arns =>
    clustersTagLoop cfg w
      (((listClustersStdout arns).getD "clusterArns" (.arr [])).iterStrings)

/-- Per-candidate tag acceptance of `_search_ecs_services_by_tags`, mirroring
`clusterTagOk`. -/
def serviceTagOk (cfg : Config) (w : World) (cluster_name service_name : String) :
    Bool :=
  match w.serviceTags cluster_name service_name with
  | .ok (some tags) =>
    tags.any (fun t => t.key == "Project" && t.value == cfg.project_name)
  | .ok none => false
  | .error _ => false

/-- The candidate loop of `_search_ecs_services_by_tags`. -/
def servicesTagLoop (cfg : Config) (w : World) (cluster_name : String) :
    List String → List String
  | [] => []
  | arn :: rest =>
    if serviceTagOk cfg w cluster_name (lastSegment arn) then
      lastSegment arn :: servicesTagLoop cfg w cluster_name rest
    else if matches_service_naming_pattern cfg (lastSegment arn) then
      lastSegment arn :: servicesTagLoop cfg w cluster_name rest
    else
      servicesTagLoop cfg w cluster_name rest

/-- Embeds `_search_ecs_services_by_tags`. -/
def search_ecs_services_by_tags (cfg : Config) (w : World)
    (cluster_name : String) : List String :=
  match w.serviceArns cluster_name with
  | .error _ => []
  | .ok arns =>
    servicesTagLoop cfg w cluster_name
      (((listServicesStdout arns).getD "serviceArns" (.arr [])).iterStrings)

/-- The seven cluster patterns of `_search_ecs_clusters_by_naming`, in their
fixed priority order. -/
def clusterNamingPatterns (cfg : Config) : List String :=
  [cfg.project_name ++ "-cluster",
   "minecraft-" ++ cfg.environment ++ "-cluster",
   "minecraft-cluster",
   cfg.project_name ++ "-cdk-cluster",
   "minecraft-cdk-cluster",
   "*-cdk-cluster",
   "*-cluster"]

/-- The six service patterns of `_search_ecs_services_by_naming`, in their
fixed priority order. -/
def serviceNamingPatterns (cfg : Config) : List String :=
  [cfg.project_name ++ "-service",
   "minecraft-" ++ cfg.environment ++ "-service",
   "minecraft-service",
   "*ECSMinecraftService*",
   "*MinecraftService*",
   "*Service*"]

/-- The candidate scan of the wildcard branch: for each item yielded by the
Python iteration, take the part after the last slash and return the first item
accepted by `_matches_pattern`. -/
def wildcardScan : List String → String → Option String
  | [], _ => none
  | item :: rest, pattern =>
    let name := lastSegment item
    if matchesPatternS name pattern then some name
    else wildcardScan rest pattern

/-- The pattern loop of `_search_ecs_clusters_by_naming`. For a wildcard
pattern the code iterates directly over `json.loads(result.stdout)` — the
parsed response object, so the Python loop runs over the dict KEYS, not over
the ARNs. For a literal pattern the server-side query
`clusterArns[?contains(@, pattern)]` filters the ARNs and the first match is
returned. -/
def clustersNamingLoop (arns : List String) : List String → Option String
  | [] => none
  | pattern :: rest =>
    if pyIn "*" pattern then
      match wildcardScan (listClustersStdout arns).iterStrings pattern with
      | some name => some name
      | none => clustersNamingLoop arns rest
    else
      match arns.filter (fun arn => pyIn pattern arn) with
      | [] => clustersNamingLoop arns rest
      | c :: _ => some (lastSegment c)

/-- Embeds `_search_ecs_clusters_by_naming`: runs the pattern loop over the
cluster listing; a failed listing call yields `None`. -/
def search_ecs_clusters_by_naming (cfg : Config) (w : World) : Option String :=
  match w.clusterArns with
  | .error _ => none
  | .ok arns => clustersNamingLoop arns (clusterNamingPatterns cfg)

/-- The pattern loop of `_search_ecs_services_by_naming`, with the same
dict-iteration behaviour in the wildcard branch. -/
def servicesNamingLoop (arns : List String) : List String → Option String
  | [] => none
  | pattern :: rest =>
    if pyIn "*" pattern then
      match wildcardScan (listServicesStdout arns).iterStrings pattern with
      | some name => some name
      | none => servicesNamingLoop arns rest
    else
      match arns.filter (fun arn => pyIn pattern arn) with
      | [] => servicesNamingLoop arns rest
      | c :: _ => some (lastSegment c)

/-- Embeds `_search_ecs_services_by_naming`. -/
def search_ecs_services_by_naming (cfg : Config) (w : World)
    (cluster_name : String) : Option String :=
  match w.serviceArns cluster_name with
  | .error _ => none
  | .ok arns => servicesNamingLoop arns (serviceNamingPatterns cfg)

/-- Embeds `_search_ec2_instances_by_tags`: `describe-instances` restricted to
running instances, the JMESPath query keeping instances tagged with exactly
`Project = project_name` and `Environment = environment` (one id list per
reservation), flattened by the Python list comprehension. A failed call yields
`[]`. -/
def search_ec2_instances_by_tags (cfg : Config) (w : World) : List String :=
  match w.ec2Reservations with
  | .error _ => []
  | .ok resv =>
    (resv.map (fun insts =>
      ((insts.filter (fun i => i.state == "running")).filter
        (fun i => hasTagKV i.tags "Project" cfg.project_name &&
                  hasTagKV i.tags "Environment" cfg.environment)).map
        (fun i => i.instanceId))).flatten

/-- The three instance name patterns of `_search_ec2_instances_by_naming`. -/
def ec2NamingPatterns (cfg : Config) : List String :=
  [cfg.project_name ++ "-proxy",
   "minecraft-" ++ cfg.environment ++ "-proxy",
   "minecraft-proxy"]

/-- The pattern loop of `_search_ec2_instances_by_naming`: per pattern, running
instances whose `Name` tag value contains the pattern, grouped per
reservation; the Python guard `if instances and instances[0]:` returns
`instances[0][0]` only when the outer list and its first group are both
non-empty. -/
def ec2NamingLoop (resv : List (List EC2Inst)) : List String → Option String
  | [] => none
  | pattern :: rest =>
    let instances : List (List String) :=
      resv.map (fun insts =>
        ((insts.filter (fun i => i.state == "running")).filter
          (fun i => i.tags.any
            (fun t => t.key == "Name" && pyIn pattern t.value))).map
          (fun i => i.instanceId))
    match instances with
    | (x :: _) :: _ => some x
    | [] :: _ => ec2NamingLoop resv rest
    | [] => ec2NamingLoop resv rest

/-- Embeds `_search_ec2_instances_by_naming`. -/
def search_ec2_instances_by_naming (cfg : Config) (w : World) : Option String :=
  match w.ec2Reservations with
  | .error _ => none
  | .ok resv => ec2NamingLoop resv (ec2NamingPatterns cfg)

/-- The Python comprehension `[dns for sublist in dns_names for dns in sublist]`
applied to a list of STRINGS: iterating a string yields its characters, so the
result is the list of one-character strings. -/
def pyCharFlatten : List String → List String
  | [] => []
  | s :: rest => s.toList.map (fun c => String.mk [c]) ++ pyCharFlatten rest

/-- Embeds `_search_nlb_by_tags`: the JMESPath query keeps load balancers
tagged with exactly the project and environment and projects their DNS names;
the comprehension then (erroneously, but faithfully to the code) flattens the
string list character by character. A failed call yields `[]`. -/
def search_nlb_by_tags (cfg : Config) (w : World) : List String :=
  match w.loadBalancers with
  | .error _ => []
  | .ok lbs =>
    pyCharFlatten
      ((lbs.filter (fun lb =>
         hasTagKV lb.tags "Project" cfg.project_name &&
         hasTagKV lb.tags "Environment" cfg.environment)).map
        (fun lb => lb.dnsName))

/-- The three load balancer name patterns of `_search_nlb_by_naming`. -/
def nlbNamingPatterns (cfg : Config) : List String :=
  [cfg.project_name ++ "-nlb",
   "minecraft-" ++ cfg.environment ++ "-nlb",
   "minecraft-nlb"]

/-- The pattern loop of `_search_nlb_by_naming`: per pattern, DNS names of load
balancers whose name contains the pattern; the first non-empty result list
yields its first DNS name. -/
def nlbNamingLoop (lbs : List LBInfo) : List String → Option String
  | [] => none
  | pattern :: rest =>
    match (lbs.filter (fun lb => pyIn pattern lb.lbName)).map
        (fun lb => lb.dnsName) with
    | [] => nlbNamingLoop lbs rest
    | d :: _ => some d

/-- Embeds `_search_nlb_by_naming`. -/
def search_nlb_by_naming (cfg : Config) (w : World) : Option String :=
  match w.loadBalancers with
  | .error _ => none
  | .ok lbs => nlbNamingLoop lbs (nlbNamingPatterns cfg)

/-! ## Per-kind detection pipeline -/

/-- The message of the exception raised by `_detect_ecs_cluster` on
exhaustion. -/
def clusterNotFoundMsg (cfg : Config) : String :=
  "ECS cluster not found for project '" ++ cfg.project_name ++
    "' in environment '" ++ cfg.environment ++ "'"

/-- The message of the exception raised by `_detect_ecs_service` on
exhaustion. -/
def serviceNotFoundMsg (cluster_name : String) : String :=
  "ECS service not found in cluster '" ++ cluster_name ++ "'"

/-- Embeds `_detect_ecs_cluster`: tag search when the mode is `auto` or
`tags`; then the `CLUSTER_NAME` override (not gated by the mode); then naming
search when the mode is `auto` or `naming`; else the exception. -/
def detect_ecs_cluster (cfg : Config) (w : World) : Except String String :=
  let step3 : Except String String :=
    if (cfg.detection_mode = .auto ∨ cfg.detection_mode = .naming) then
      match search_ecs_clusters_by_naming cfg w with
      | some n => .ok n
      | none => .error (clusterNotFoundMsg cfg)
    else .error (clusterNotFoundMsg cfg)
  let step2 : Except String String :=
    match envTruthy w "CLUSTER_NAME" with
    | some v => .ok v
    | none => step3
  if (cfg.detection_mode = .auto ∨ cfg.detection_mode = .tags) then
    match search_ecs_clusters_by_tags cfg w with
    | c :: _ => .ok c
    | [] => step2
  else step2

/-- Embeds `_detect_ecs_service`: tag search when the mode is `auto` or
`tags`; then the `SERVICE_NAME` override (not gated); then naming search when
the mode is `auto` or `naming`; then the last-resort first service of the
cluster (`list-services --query serviceArns[0] --output text`, where an empty
listing prints `None`); else the exception. -/
def detect_ecs_service (cfg : Config) (w : World) (cluster_name : String) :
    Except String String :=
  let step4 : Except String String :=
    match w.serviceArns cluster_name with
    | .error _ => .error (serviceNotFoundMsg cluster_name)
    | .ok arns =>
      let service_arn := match arns with | [] => "None" | a :: _ => a
      if !(service_arn == "") && !(service_arn == "None") then
        .ok (lastSegment service_arn)
      else .error (serviceNotFoundMsg cluster_name)
  let step3 : Except String String :=
    if (cfg.detection_mode = .auto ∨ cfg.detection_mode = .naming) then
      match search_ecs_services_by_naming cfg w cluster_name with
      | some n => .ok n
      | none => step4
    else step4
  let step2 : Except String String :=
    match envTruthy w "SERVICE_NAME" with
    | some v => .ok v
    | none => step3
  if (cfg.detection_mode = .auto ∨ cfg.detection_mode = .tags) then
    match search_ecs_services_by_tags cfg w cluster_name with
    | s :: _ => .ok s
    | [] => step2
  else step2

/-- Embeds `_detect_task_arn`: `list-tasks --query taskArns[0] --output text`
(an empty listing prints `None`); a listing failure raises with the stderr
text, an empty listing raises naming the service. -/
def detect_task_arn (cfg : Config) (w : World)
    (cluster_name service_name : String) : Except String String :=
  match w.taskArns cluster_name service_name with
  | .error stderr => .error ("Failed to list tasks: " ++ stderr)
  | .ok arns =>
    let task_arn := match arns with | [] => "None" | a :: _ => a
    if !(task_arn == "") && !(task_arn == "None") then .ok task_arn
    else .error ("No running tasks found for service " ++ service_name)

/-- Embeds `_detect_container_name`: the `CONTAINER_NAME` override first, then
`describe-tasks --query tasks[0].containers[0].name --output text` (an absent
container prints `None`, which the truthiness check accepts). -/
def detect_container_name (cfg : Config) (w : World)
    (cluster_name task_arn : String) : Except String String :=
  let fromTask : Except String String :=
    match w.taskContainers cluster_name task_arn with
    | .error stderr => .error ("Failed to describe task: " ++ stderr)
    | .ok cs =>
      let container_name := match cs with | [] => "None" | c :: _ => c
      if container_name == "" then .error "No container found in task"
      else .ok container_name
  match envTruthy w "CONTAINER_NAME" with
  | some v => .ok v
  | none => fromTask

/-- Embeds `_detect_ec2_instance`: tag search when the mode is `auto` or
`tags`; then the `EC2_INSTANCE_ID` override (not gated); then naming search
when the mode is `auto` or `naming`; else the Fargate sentinel — never an
exception. -/
def detect_ec2_instance (cfg : Config) (w : World) : String :=
  let step3 : String :=
    if (cfg.detection_mode = .auto ∨ cfg.detection_mode = .naming) then
      match search_ec2_instances_by_naming cfg w with
      | some i => i
      | none => "fargate-no-ec2"
    else "fargate-no-ec2"
  let step2 : String :=
    match envTruthy w "EC2_INSTANCE_ID" with
    | some v => v
    | none => step3
  if (cfg.detection_mode = .auto ∨ cfg.detection_mode = .tags) then
    match search_ec2_instances_by_tags cfg w with
    | i :: _ => i
    | [] => step2
  else step2

/-- Embeds `_detect_nlb_dns`: tag search when the mode is `auto` or `tags`;
then the `NLB_DNS_NAME` override (not gated); then naming search when the mode
is `auto` or `naming`; else the sentinel — never an exception. -/
def detect_nlb_dns (cfg : Config) (w : World) : String :=
  let step3 : String :=
    if (cfg.detection_mode = .auto ∨ cfg.detection_mode = .naming) then
      match search_nlb_by_naming cfg w with
      | some d => d
      | none => "no-nlb-configured"
    else "no-nlb-configured"
  let step2 : String :=
    match envTruthy w "NLB_DNS_NAME" with
    | some v => v
    | none => step3
  if (cfg.detection_mode = .auto ∨ cfg.detection_mode = .tags) then
    match search_nlb_by_tags cfg w with
    | d :: _ => d
    | [] => step2
  else step2

/-- Embeds the `ResourceConfig` dataclass (the snapshot). -/
structure ResourceConfig where
  cluster_name : String
  service_name : String
  container_name : String
  task_arn : String
  ec2_instance_id : String
  nlb_dns_name : String
  detection_mode : String
  project_name : String
  environment : String
deriving DecidableEq, Repr

/-- Embeds `detect_all_resources`: the required chain
cluster → service → task → container (any raised exception aborts the run),
then the two optional kinds, then the snapshot. -/
def detect_all_resources (cfg : Config) (w : World) :
    Except String ResourceConfig := do
  let cluster_name ← detect_ecs_cluster cfg w
  let service_name ← detect_ecs_service cfg w cluster_name
  let task_arn ← detect_task_arn cfg w cluster_name service_name
  let container_name ← detect_container_name cfg w cluster_name task_arn
  let ec2_instance_id := detect_ec2_instance cfg w
  let nlb_dns_name := detect_nlb_dns cfg w
  pure
    { cluster_name := cluster_name
      service_name := service_name
      container_name := container_name
      task_arn := task_arn
      ec2_instance_id := ec2_instance_id
      nlb_dns_name := nlb_dns_name
      detection_mode := cfg.detection_mode.value
      project_name := cfg.project_name
      environment := cfg.environment }

/-- A world in which every CLI call fails and no variable is set; concrete
scenarios override individual fields. -/
def emptyWorld : World where
  env := fun _ => none
  clusterArns := .error ""
  clusterTags := fun _ => .error ""
  serviceArns := fun _ => .error ""
  serviceTags := fun _ _ => .error ""
  taskArns := fun _ _ => .error ""
  taskContainers := fun _ _ => .error ""
  ec2Reservations := .error ""
  loadBalancers := .error ""

theorem iterStrings_strArr (l : List String) :
    (PyJson.arr (l.map .str)).iterStrings = l := by
  induction l with
  | nil => rfl
  | cons a rest ih =>
    simp only [PyJson.iterStrings, List.map_map, List.map_cons] at ih ⊢
    simp_all

theorem clustersStdout_extract (arns : List String) :
    ((listClustersStdout arns).getD "clusterArns" (.arr [])).iterStrings
      = arns := by
  have h : (listClustersStdout arns).getD "clusterArns" (.arr [])
      = PyJson.arr (arns.map .str) := by
    simp [listClustersStdout, PyJson.getD, List.find?]
  rw [h, iterStrings_strArr]

theorem servicesStdout_extract (arns : List String) :
    ((listServicesStdout arns).getD "serviceArns" (.arr [])).iterStrings
      = arns := by
  have h : (listServicesStdout arns).getD "serviceArns" (.arr [])
      = PyJson.arr (arns.map .str) := by
    simp [listServicesStdout, PyJson.getD, List.find?]
  rw [h, iterStrings_strArr]

/-! ## Claim C1: what the tag strategies actually match -/

/-- Configuration of the C1 scenario: project `mc`, environment `dev`. -/
def cfgC1 : Config := ⟨"dev", "mc", .auto⟩

/-- World of the C1 scenario: one cluster `c1` tagged only
`Project = mc` — no `Environment` tag at all. -/
def wC1 : World := { emptyWorld with
  clusterArns := .ok ["arn:aws:ecs:r:1:cluster/c1"]
  clusterTags := fun n =>
    if n == "c1" then .ok (some [⟨"Project", "mc"⟩]) else .error "" }

/-- Counterexample to C1: the cluster tag strategy returns a candidate whose
tag set contains a matching `Project` entry but no `Environment` entry at all,
while the claim requires such a candidate not to be returned. -/
theorem c1_counterexample :
    wC1.clusterTags "c1" = .ok (some [⟨"Project", "mc"⟩]) ∧
    (∀ t ∈ [Tag.mk "Project" "mc"], t.key ≠ "Environment") ∧
    cfgC1.environment = "dev" ∧
    search_ecs_clusters_by_tags cfgC1 wC1 = ["c1"] := by
  refine ⟨rfl, by decide, rfl, ?_⟩
  rfl

/-- Claim C1 as amended: the exact two-tag criterion holds for the EC2
instance search (and, symmetrically, the load balancer search), but the ECS
cluster search checks only the `Project` tag — a candidate whose tags match
the project is returned regardless of any `Environment` tag. -/
theorem c1_amended (cfg : Config) (w : World) (resv : List (List EC2Inst))
    (arns : List String) (x arn : String)
    (hec2 : w.ec2Reservations = .ok resv)
    (hcl : w.clusterArns = .ok arns)
    (harn : arn ∈ arns)
    (htag : clusterTagOk cfg w (lastSegment arn) = true) :
    (x ∈ search_ec2_instances_by_tags cfg w ↔
      ∃ insts ∈ resv, ∃ i ∈ insts, i.instanceId = x ∧ i.state = "running" ∧
        (∃ t ∈ i.tags, t.key = "Project" ∧ t.value = cfg.project_name) ∧
        (∃ t ∈ i.tags, t.key = "Environment" ∧ t.value = cfg.environment)) ∧
    lastSegment arn ∈ search_ecs_clusters_by_tags cfg w := by
  constructor
  · constructor
    · intro hx
      unfold search_ec2_instances_by_tags at hx
      rw [hec2] at hx
      obtain ⟨l, hl, hxl⟩ := List.mem_flatten.mp hx
      obtain ⟨insts, hinsts, rfl⟩ := List.mem_map.mp hl
      obtain ⟨i, hi, rfl⟩ := List.mem_map.mp hxl
      obtain ⟨hi2, hq⟩ := List.mem_filter.mp hi
      obtain ⟨hi3, hr⟩ := List.mem_filter.mp hi2
      rw [Bool.and_eq_true] at hq
      obtain ⟨hp, he⟩ := hq
      unfold hasTagKV at hp he
      refine ⟨insts, hinsts, i, hi3, rfl, by simpa using hr, ?_, ?_⟩
      · obtain ⟨t, ht, hkv⟩ := List.any_eq_true.mp hp
        rw [Bool.and_eq_true] at hkv
        exact ⟨t, ht, by simpa using hkv.1, by simpa using hkv.2⟩
      · obtain ⟨t, ht, hkv⟩ := List.any_eq_true.mp he
        rw [Bool.and_eq_true] at hkv
        exact ⟨t, ht, by simpa using hkv.1, by simpa using hkv.2⟩
    · rintro ⟨insts, hinsts, i, hi, rfl, hrun, ⟨tp, htp, hpk, hpv⟩, te, hte, hek, hev⟩
      unfold search_ec2_instances_by_tags
      rw [hec2]
      apply List.mem_flatten.mpr
      refine ⟨_, List.mem_map.mpr ⟨insts, hinsts, rfl⟩, ?_⟩
      apply List.mem_map.mpr
      refine ⟨i, ?_, rfl⟩
      apply List.mem_filter.mpr
      refine ⟨List.mem_filter.mpr ⟨hi, by simpa using hrun⟩, ?_⟩
      rw [Bool.and_eq_true]
      unfold hasTagKV
      constructor
      · exact List.any_eq_true.mpr ⟨tp, htp, by simp [hpk, hpv]⟩
      · exact List.any_eq_true.mpr ⟨te, hte, by simp [hek, hev]⟩
  · unfold search_ecs_clusters_by_tags
    rw [hcl]
    show lastSegment arn ∈ clustersTagLoop cfg w
      (((listClustersStdout arns).getD "clusterArns" (.arr [])).iterStrings)
    rw [clustersStdout_extract]
    clear hcl
    induction arns with
    | nil => cases harn
    | cons a rest ih =>
      rcases List.mem_cons.mp harn with rfl | hmem
      · simp only [clustersTagLoop]
        rw [if_pos htag]
        exact List.mem_cons_self _ _
      · simp only [clustersTagLoop]
        by_cases h1 : clusterTagOk cfg w (lastSegment a) = true
        · rw [if_pos h1]
          exact List.mem_cons_of_mem _ (ih hmem)
        · rw [if_neg h1]
          by_cases h2 : matches_cluster_naming_pattern cfg (lastSegment a) = true
          · rw [if_pos h2]
            exact List.mem_cons_of_mem _ (ih hmem)
          · rw [if_neg h2]
            exact ih hmem

/-- Reservations of the C1 witness scenario: one running instance carrying
both tags. -/
def resvW1 : List (List EC2Inst) :=
  [[⟨"i-1", "running", [⟨"Project", "mc"⟩, ⟨"Environment", "dev"⟩]⟩]]

/-- World of the C1 witness scenario. -/
def wW1 : World := { emptyWorld with
  ec2Reservations := .ok resvW1
  clusterArns := .ok ["arn:aws:ecs:r:1:cluster/c1"]
  clusterTags := fun n =>
    if n == "c1" then .ok (some [⟨"Project", "mc"⟩]) else .error "" }

/-- Witness for the amended C1 at a concrete world: the doubly tagged running
instance is found, and the project-only tagged cluster is found. -/
theorem c1_amended_witness :
    "i-1" ∈ search_ec2_instances_by_tags cfgC1 wW1 ∧
    "c1" ∈ search_ecs_clusters_by_tags cfgC1 wW1 := by
  have h := c1_amended cfgC1 wW1 resvW1 ["arn:aws:ecs:r:1:cluster/c1"]
    "i-1" "arn:aws:ecs:r:1:cluster/c1" rfl rfl (by decide) (by decide)
  exact ⟨(h.1).mpr (by decide), h.2⟩

/-! ## Claim C4: the tag strategy result, characterized -/

/-- Configuration of the C4 counterexample scenario. -/
def cfgC4 : Config := ⟨"dev", "mc", .auto⟩

/-- World of the C4 counterexample scenario: one cluster whose per-candidate
tag fetch fails, but whose name matches the `minecraft-cluster` naming
fallback inside the tag strategy. -/
def wC4 : World := { emptyWorld with
  clusterArns := .ok ["arn:aws:ecs:r:1:cluster/big-minecraft-cluster-2"]
  clusterTags := fun _ => .error "AccessDenied" }

/-- Counterexample to C4: a candidate whose per-candidate tag fetch failed is
nevertheless returned by the tag strategy (through its naming fallback), while
the claim requires such a candidate never to be included. -/
theorem c4_counterexample :
    wC4.clusterTags "big-minecraft-cluster-2" = .error "AccessDenied" ∧
    search_ecs_clusters_by_tags cfgC4 wC4 = ["big-minecraft-cluster-2"] :=
  ⟨rfl, rfl⟩

/-- Claim C4 as amended: on a successful listing, the ECS cluster (and
service) tag strategy returns, in listing order, exactly the candidates that
either match the `Project` tag or — failing that, including a failed tag
fetch — match the kind's literal naming patterns. -/
theorem c4_amended (cfg : Config) (w : World) (arns sarns : List String)
    (cl : String) (hc : w.clusterArns = .ok arns)
    (hs : w.serviceArns cl = .ok sarns) :
    search_ecs_clusters_by_tags cfg w =
      (arns.map lastSegment).filter
        (fun n => clusterTagOk cfg w n || matches_cluster_naming_pattern cfg n) ∧
    search_ecs_services_by_tags cfg w cl =
      (sarns.map lastSegment).filter
        (fun n => serviceTagOk cfg w cl n ||
          matches_service_naming_pattern cfg n) := by
  constructor
  · unfold search_ecs_clusters_by_tags
    rw [hc]
    show clustersTagLoop cfg w
      (((listClustersStdout arns).getD "clusterArns" (.arr [])).iterStrings) = _
    rw [clustersStdout_extract]
    clear hc
    induction arns with
    | nil => rfl
    | cons a rest ih =>
      simp only [clustersTagLoop, List.map_cons, List.filter_cons]
      by_cases h1 : clusterTagOk cfg w (lastSegment a) = true
      · rw [if_pos h1, ih]
        simp [h1]
      · rw [if_neg h1]
        rw [Bool.not_eq_true] at h1
        by_cases h2 : matches_cluster_naming_pattern cfg (lastSegment a) = true
        · rw [if_pos h2, ih]
          simp [h1, h2]
        · rw [if_neg h2, ih]
          rw [Bool.not_eq_true] at h2
          simp [h1, h2]
  · unfold search_ecs_services_by_tags
    rw [hs]
    show servicesTagLoop cfg w cl
      (((listServicesStdout sarns).getD "serviceArns" (.arr [])).iterStrings) = _
    rw [servicesStdout_extract]
    clear hs
    induction sarns with
    | nil => rfl
    | cons a rest ih =>
      simp only [servicesTagLoop, List.map_cons, List.filter_cons]
      by_cases h1 : serviceTagOk cfg w cl (lastSegment a) = true
      · rw [if_pos h1, ih]
        simp [h1]
      · rw [if_neg h1]
        rw [Bool.not_eq_true] at h1
        by_cases h2 : matches_service_naming_pattern cfg (lastSegment a) = true
        · rw [if_pos h2, ih]
          simp [h1, h2]
        · rw [if_neg h2, ih]
          rw [Bool.not_eq_true] at h2
          simp [h1, h2]

/-- World of the C4 witness scenario. -/
def wW4 : World := { emptyWorld with
  clusterArns := .ok ["arn:aws:ecs:r:1:cluster/mc-cluster"]
  serviceArns := fun _ => .ok [] }

/-- Witness for the amended C4 at a concrete world. -/
theorem c4_amended_witness :
    search_ecs_clusters_by_tags cfgC4 wW4 =
      ((["arn:aws:ecs:r:1:cluster/mc-cluster"].map lastSegment).filter
        (fun n => clusterTagOk cfgC4 wW4 n ||
          matches_cluster_naming_pattern cfgC4 n)) :=
  (c4_amended cfgC4 wW4 ["arn:aws:ecs:r:1:cluster/mc-cluster"] [] "c" rfl rfl).1

/-! ## Claim C2: what the exhaustion errors actually say -/

/-- Configuration of the C2 counterexample scenario, with recognizable project
and environment names. -/
def cfgC2 : Config := ⟨"envY", "projX", .auto⟩

/-- World of the C2 counterexample scenario: the cluster `c1` exists but lists
no services at all. -/
def wC2 : World := { emptyWorld with
  serviceArns := fun _ => .ok [] }

/-- Counterexample to C2: service resolution exhausts every strategy and
raises, but its message names neither the configured project nor the
configured environment — only the cluster. -/
theorem c2_counterexample :
    detect_ecs_service cfgC2 wC2 "c1" =
      .error "ECS service not found in cluster 'c1'" ∧
    pyIn "projX" "ECS service not found in cluster 'c1'" = false ∧
    pyIn "envY" "ECS service not found in cluster 'c1'" = false := by
  refine ⟨rfl, by decide, by decide⟩

/-- Claim C2 as amended: on exhaustion, cluster resolution raises a message
naming the kind, the project and the environment, but service resolution
raises a message naming only the kind and the cluster. -/
theorem c2_amended (cfg : Config) (w : World) (cl : String)
    (h1 : search_ecs_clusters_by_tags cfg w = [])
    (h2 : envTruthy w "CLUSTER_NAME" = none)
    (h3 : search_ecs_clusters_by_naming cfg w = none)
    (h4 : search_ecs_services_by_tags cfg w cl = [])
    (h5 : envTruthy w "SERVICE_NAME" = none)
    (h6 : search_ecs_services_by_naming cfg w cl = none)
    (h7 : w.serviceArns cl = .ok []) :
    detect_ecs_cluster cfg w = .error (clusterNotFoundMsg cfg) ∧
    detect_ecs_service cfg w cl = .error (serviceNotFoundMsg cl) ∧
    pyIn cfg.project_name (clusterNotFoundMsg cfg) = true ∧
    pyIn cfg.environment (clusterNotFoundMsg cfg) = true := by
  obtain ⟨e, p, m⟩ := cfg
  refine ⟨?_, ?_, ?_, ?_⟩
  · cases m <;> simp [detect_ecs_cluster, h1, h2, h3]
  · cases m <;> simp [detect_ecs_service, h4, h5, h6, h7]
  · unfold pyIn
    rw [isSubL_iff]
    exact ⟨"ECS cluster not found for project '".toList,
      ("' in environment '" ++ e ++ "'").toList,
      by simp [clusterNotFoundMsg, String.toList]⟩
  · unfold pyIn
    rw [isSubL_iff]
    exact ⟨("ECS cluster not found for project '" ++ p ++
        "' in environment '").toList,
      "'".toList,
      by simp [clusterNotFoundMsg, String.toList]⟩

/-- Witness for the amended C2: the exhausted world of the counterexample
scenario satisfies every hypothesis. -/
theorem c2_amended_witness :
    detect_ecs_cluster cfgC2 wC2 =
      .error "ECS cluster not found for project 'projX' in environment 'envY'" :=
  (c2_amended cfgC2 wC2 "c1" rfl rfl rfl rfl rfl rfl rfl).1

/-! ## Claim C3: the override is not gated by the detection mode -/

/-- Configuration of the C3 counterexample scenario: detection mode `tags`. -/
def cfgC3 : Config := ⟨"dev", "mc", .tags⟩

/-- World of the C3 counterexample scenario: no cluster exists, but
`CLUSTER_NAME` is set. -/
def wC3 : World := { emptyWorld with
  clusterArns := .ok []
  env := fun k => if k == "CLUSTER_NAME" then some "envclu" else none }

/-- Counterexample to C3: in mode `tags`, with the tag strategy yielding no
match, cluster resolution consults and returns the `CLUSTER_NAME` override
value instead of failing. -/
theorem c3_counterexample :
    cfgC3.detection_mode = DetectionMode.tags ∧
    search_ecs_clusters_by_tags cfgC3 wC3 = [] ∧
    detect_ecs_cluster cfgC3 wC3 = .ok "envclu" := by
  refine ⟨rfl, rfl, rfl⟩

/-- Claim C3 as amended: the detection mode gates only the tag and naming
strategies; the environment override is consulted in every mode — in mode
`env` it is the only strategy, in mode `tags` it runs after an empty tag
search, and in mode `naming` it runs before the naming search. -/
theorem c3_amended (cfg : Config) (w : World) (v : String) :
    (cfg.detection_mode = .env → envTruthy w "CLUSTER_NAME" = some v →
      detect_ecs_cluster cfg w = .ok v) ∧
    (cfg.detection_mode = .env → envTruthy w "CLUSTER_NAME" = none →
      detect_ecs_cluster cfg w = .error (clusterNotFoundMsg cfg)) ∧
    (cfg.detection_mode = .tags → search_ecs_clusters_by_tags cfg w = [] →
      envTruthy w "CLUSTER_NAME" = some v →
      detect_ecs_cluster cfg w = .ok v) ∧
    (cfg.detection_mode = .naming → envTruthy w "CLUSTER_NAME" = some v →
      detect_ecs_cluster cfg w = .ok v) := by
  refine ⟨?_, ?_, ?_, ?_⟩
  · intro hm he
    simp [detect_ecs_cluster, hm, he]
  · intro hm he
    simp [detect_ecs_cluster, hm, he]
  · intro hm ht he
    simp [detect_ecs_cluster, hm, ht, he]
  · intro hm he
    simp [detect_ecs_cluster, hm, he]

/-- Witness for the amended C3: the `tags`-mode clause at the counterexample
world. -/
theorem c3_amended_witness :
    detect_ecs_cluster cfgC3 wC3 = .ok "envclu" :=
  (c3_amended cfgC3 wC3 "envclu").2.2.1 rfl rfl rfl

/-! ## Claim C6: the wildcard branch of the naming search -/

/-- Configuration of the C6 scenario. -/
def cfgC6 : Config := ⟨"dev", "mc", .naming⟩

/-- World of the C6 failing input: one cluster whose name matches the wildcard
pattern `*-cdk-cluster` but none of the literal patterns. -/
def wC6 : World := { emptyWorld with
  clusterArns := .ok ["arn:aws:ecs:r:1:cluster/foo-cdk-cluster"] }

/-- World of the C6 literal-pattern scenario (end-to-end scenario B of the
specification). -/
def wC6lit : World := { emptyWorld with
  clusterArns := .ok ["arn:aws:ecs:r:1:cluster/mc-cluster-1"] }

/-- Claim C6, evaluated at the failing input: the pattern `*-cdk-cluster` is in
the pattern list and matches the listed candidate `foo-cdk-cluster`, yet the
naming search returns no match, because its wildcard branch iterates over the
parsed response object (whose Python iteration yields the dict key
`"clusterArns"`) instead of over the ARN list. The literal-pattern path is
unaffected: with candidate `mc-cluster-1` and literal pattern `mc-cluster` the
search resolves `mc-cluster-1`. -/
theorem c6_code_bug :
    wC6.clusterArns = .ok ["arn:aws:ecs:r:1:cluster/foo-cdk-cluster"] ∧
    "*-cdk-cluster" ∈ clusterNamingPatterns cfgC6 ∧
    matchesPatternS "foo-cdk-cluster" "*-cdk-cluster" = true ∧
    search_ecs_clusters_by_naming cfgC6 wC6 = none ∧
    search_ecs_clusters_by_naming cfgC6 wC6lit = some "mc-cluster-1" := by
  refine ⟨rfl, by decide, by decide, rfl, rfl⟩

/-! ## Claim C7: optional kinds degrade to sentinels -/

/-- Claim C7: when every strategy for the two optional kinds is exhausted,
instance detection yields `fargate-no-ec2` and load balancer detection yields
`no-nlb-configured` — never an error — and whenever the required chain
resolves, the whole pipeline still emits a complete snapshot carrying the two
sentinels. -/
theorem c7_optional_sentinels (cfg : Config) (w : World)
    (hi1 : search_ec2_instances_by_tags cfg w = [])
    (hi2 : envTruthy w "EC2_INSTANCE_ID" = none)
    (hi3 : search_ec2_instances_by_naming cfg w = none)
    (hn1 : search_nlb_by_tags cfg w = [])
    (hn2 : envTruthy w "NLB_DNS_NAME" = none)
    (hn3 : search_nlb_by_naming cfg w = none) :
    detect_ec2_instance cfg w = "fargate-no-ec2" ∧
    detect_nlb_dns cfg w = "no-nlb-configured" ∧
    (∀ c s t k, detect_ecs_cluster cfg w = .ok c →
      detect_ecs_service cfg w c = .ok s →
      detect_task_arn cfg w c s = .ok t →
      detect_container_name cfg w c t = .ok k →
      detect_all_resources cfg w = .ok
        ⟨c, s, k, t, "fargate-no-ec2", "no-nlb-configured",
         cfg.detection_mode.value, cfg.project_name, cfg.environment⟩) := by
  have hinst : detect_ec2_instance cfg w = "fargate-no-ec2" := by
    obtain ⟨e, p, m⟩ := cfg
    cases m <;> simp [detect_ec2_instance, hi1, hi2, hi3]
  have hnlb : detect_nlb_dns cfg w = "no-nlb-configured" := by
    obtain ⟨e, p, m⟩ := cfg
    cases m <;> simp [detect_nlb_dns, hn1, hn2, hn3]
  refine ⟨hinst, hnlb, ?_⟩
  intro c s t k h1 h2 h3 h4
  simp [detect_all_resources, h1, h2, h3, h4, hinst, hnlb, Bind.bind,
    Except.bind, Functor.map, Except.map, Pure.pure, Except.pure]

/-- World of the C7 witness scenario: everything empty, but the required chain
fully resolvable. -/
def wW7 : World := { emptyWorld with
  clusterArns := .ok []
  env := fun k =>
    if k == "CLUSTER_NAME" then some "c0"
    else if k == "SERVICE_NAME" then some "s0"
    else if k == "CONTAINER_NAME" then some "k0"
    else none
  taskArns := fun _ _ => .ok ["t0"]
  ec2Reservations := .ok []
  loadBalancers := .ok [] }

/-- Configuration of the C7 witness scenario. -/
def cfgW7 : Config := ⟨"dev", "mc", .auto⟩

/-- Witness for C7 at a concrete world: both sentinels appear in the final
snapshot. -/
theorem c7_optional_sentinels_witness :
    detect_all_resources cfgW7 wW7 = .ok
      ⟨"c0", "s0", "k0", "t0", "fargate-no-ec2", "no-nlb-configured",
       "auto", "mc", "dev"⟩ :=
  (c7_optional_sentinels cfgW7 wW7 rfl rfl rfl rfl rfl rfl).2.2
    "c0" "s0" "t0" "k0" rfl rfl rfl rfl

/-! ## Claim C8: the container override wins unconditionally -/

/-- Claim C8: with `CONTAINER_NAME` set to a non-empty value `v`, container
resolution returns `v` — even when describing the resolved task would yield a
different first container name, and regardless of what the describe-task call
would answer at all. -/
theorem c8_container_override (cfg : Config) (w : World)
    (cluster task v other : String) (rest : List String)
    (hv : w.env "CONTAINER_NAME" = some v) (hne : v ≠ "")
    (hd : w.taskContainers cluster task = .ok (other :: rest))
    (hdiff : other ≠ v) :
    detect_container_name cfg w cluster task = .ok v ∧
    (∀ f, detect_container_name cfg { w with taskContainers := f } cluster task
        = .ok v) := by
  have henv : envTruthy w "CONTAINER_NAME" = some v := by
    unfold envTruthy
    rw [hv]
    simp [hne]
  constructor
  · simp [detect_container_name, henv]
  · intro f
    have henv2 : envTruthy { w with taskContainers := f } "CONTAINER_NAME"
        = some v := henv
    simp [detect_container_name, henv2]

/-- World of the C8 witness scenario: the override says `custom`, the task
describes a different first container `other-name`. -/
def wW8 : World := { emptyWorld with
  env := fun k => if k == "CONTAINER_NAME" then some "custom" else none
  taskContainers := fun _ _ => .ok ["other-name"] }

/-- Witness for C8 at a concrete world. -/
theorem c8_container_override_witness :
    detect_container_name cfgW7 wW8 "c" "t" = .ok "custom" :=
  (c8_container_override cfgW7 wW8 "c" "t" "custom" "other-name" []
    rfl (by decide) rfl (by decide)).1

/-! ## Claim C9: a top-level listing failure exhausts the tag strategy -/

/-- Claim C9: when the top-level listing call of a tag strategy fails, that
strategy returns the empty result for every kind that uses it, and the
pipeline falls through to the next strategy of the kind's fixed order — for
the cluster, the `CLUSTER_NAME` override. -/
theorem c9_listing_failure (cfg : Config) (w : World)
    (cl s1 s2 s3 s4 v : String)
    (h1 : w.clusterArns = .error s1)
    (h2 : w.serviceArns cl = .error s2)
    (h3 : w.ec2Reservations = .error s3)
    (h4 : w.loadBalancers = .error s4)
    (henv : envTruthy w "CLUSTER_NAME" = some v) :
    search_ecs_clusters_by_tags cfg w = [] ∧
    search_ecs_services_by_tags cfg w cl = [] ∧
    search_ec2_instances_by_tags cfg w = [] ∧
    search_nlb_by_tags cfg w = [] ∧
    detect_ecs_cluster cfg w = .ok v := by
  refine ⟨?_, ?_, ?_, ?_, ?_⟩
  · simp [search_ecs_clusters_by_tags, h1]
  · simp [search_ecs_services_by_tags, h2]
  · simp [search_ec2_instances_by_tags, h3]
  · simp [search_nlb_by_tags, h4]
  · obtain ⟨e, p, m⟩ := cfg
    cases m <;>
      simp [detect_ecs_cluster, search_ecs_clusters_by_tags, h1, henv]

/-- World of the C9 witness scenario: every listing call fails, the cluster
override is set. -/
def wW9 : World := { emptyWorld with
  clusterArns := .error "throttled"
  env := fun k => if k == "CLUSTER_NAME" then some "c9" else none }

/-- Witness for C9 at a concrete world. -/
theorem c9_listing_failure_witness :
    search_ecs_clusters_by_tags cfgW7 wW9 = [] ∧
    detect_ecs_cluster cfgW7 wW9 = .ok "c9" := by
  have h := c9_listing_failure cfgW7 wW9 "cl" "throttled" "" "" "" "c9"
    rfl rfl rfl rfl rfl
  exact ⟨h.1, h.2.2.2.2⟩

end Rcon
